import Mathlib

/-!
Verification development for the regular-expression parser implemented in
src/lexerParser.cpp of the cExprLalr repository.

Modelling conventions, chosen to follow the C++ source faithfully:

- A C++ char value is modelled as an Int.  On the reference platform
  (x86-64 Linux, gcc/clang) char is a signed 8-bit type, so the value of
  std::numeric_limits of char max is 127, and storing an int into a char
  field wraps two's-complement into the interval from -128 to 127; the
  function toChar models that store conversion.
- The Matching struct holds a reference to a std::string_view that is a
  suffix of the input; consuming a character removes the front of the
  view.  The view is therefore modelled as the list of remaining
  character codes (St).  Snapshot and restore of the cursor is modelled
  by saving and reinstating that list.
- Reading ref at an index that is not below the length of the remaining
  view (string_view subscript out of range) is undefined behaviour in
  C++; the model makes such a run observable by returning none.  A run
  that is free of undefined behaviour returns some of (optional node,
  final cursor state), where an absent node is the ordinary parse
  failure signal of the source.
- The four mutually recursive grammar rules of the source recurse only
  after consuming input; the model makes them total with an explicit
  fuel counter, decremented once per rule invocation, where exhausted
  fuel yields an ordinary failure with the cursor unchanged.  The
  top-level parse function supplies fuel that is ample for its input
  (four units per character plus a constant), so concrete runs below
  never exhaust it.

Frequently used character codes: 40 is the open parenthesis, 41 the
close parenthesis, 42 the star, 43 the plus sign, 46 the dot, 63 the
question mark, 92 the backslash, 124 the vertical bar, 0 the null
sentinel; 97, 98, 99 are the letters a, b, c.
-/

/-- State of the cursor: the remaining character codes of the input view. -/
abbrev St := List Int

/-- Model of the two's-complement conversion performed when an int value is
stored into a signed char field of RegexParserNode. -/
def toChar (x : Int) : Int :=
  (x + 128) % 256 - 128

/-- Node tags, in the order of the enum Type of RegexParserNode. -/
inductive NodeType where
  | OR
  | AND
  | OPT
  | MANY
  | NONZERO
  | CHAR
deriving DecidableEq, Repr

/-- Parse-tree node: tag, subnodes, and for CHAR nodes the first matched
character and the past-the-end character of the half-open range. -/
inductive RegexParserNode where
  | node (type : NodeType) (subNodes : List RegexParserNode) (begChar : Int) (endChar : Int)

/-- Tag of a node. -/
def nodeTypeOf : RegexParserNode → NodeType
  | RegexParserNode.node t _ _ _ => t

/-- Subnodes of a node. -/
def subNodesOf : RegexParserNode → List RegexParserNode
  | RegexParserNode.node _ subs _ _ => subs

/-- First character matched by a CHAR node. -/
def begCharOf : RegexParserNode → Int
  | RegexParserNode.node _ _ b _ => b

/-- Past-the-end character of a CHAR node. -/
def endCharOf : RegexParserNode → Int
  | RegexParserNode.node _ _ _ e => e

/-- Construction of a node: the int arguments are stored into signed char
fields, hence pass through toChar, as in the C++ constructor. -/
def mkNode (t : NodeType) (subs : List RegexParserNode) (b e : Int) : RegexParserNode :=
  RegexParserNode.node t subs (toChar b) (toChar e)

/-- Membership of a character in a half-open CHAR-node range. -/
def nodeCoversChar (n : RegexParserNode) (c : Int) : Prop :=
  begCharOf n ≤ c ∧ c < endCharOf n

/-- Result of a grammar rule: none marks a run with undefined behaviour;
otherwise the optional node produced and the final cursor state. -/
abbrev Res := Option (Option RegexParserNode × St)

/-- Model of std::string_view find_first_of, returning the index in filt of
the first element equal to c; k is the number of elements already scanned. -/
def findFirstOfAux (filt : List Int) (c : Int) (k : Nat) : Option Nat :=
  match filt with
  | [] => none
  | x :: rest => if x = c then some k else findFirstOfAux rest c (k + 1)

/-- Index in filt of the first occurrence of c, or none. -/
def findFirstOf (filt : List Int) (c : Int) : Option Nat :=
  findFirstOfAux filt c 0

/-- Model of subscripting the remaining view: defined only below its length. -/
def viewAt : St → Nat → Option Int
  | [], _ => none
  | c :: _, 0 => some c
  | _ :: rest, n + 1 => viewAt rest n

/-- Matching.matchAnyChar: consume and return the front character, or return
the null sentinel on exhausted input. -/
def matchAnyChar (s : St) : Int × St :=
  match s with
  | [] => (0, s)
  | c :: rest => (c, rest)

/-- Matching.matchChar: consume the front character when it equals c. -/
def matchChar (c : Int) (s : St) : Bool × St :=
  match s with
  | [] => (false, s)
  | d :: rest => if d = c then (true, rest) else (false, s)

/-- Matching.matchCharNotIn: consume and return the front character when it
does not occur in filt, else return the null sentinel without consuming. -/
def matchCharNotIn (filt : List Int) (s : St) : Int × St :=
  match s with
  | [] => (0, s)
  | c :: rest =>
    match findFirstOf filt c with
    | none => (c, rest)
    | some _ => (0, s)

/-- Matching.matchAnyCharIn: when the front character occurs in filt at
position pos, the source reads ref at index pos — an index into the
remaining input view, not into filt — then consumes one character and
returns that read value.  The read is undefined behaviour (none) when pos
is not below the length of the remaining view. -/
def matchAnyCharIn (filt : List Int) (s : St) : Option (Int × St) :=
  match s with
  | [] => some (0, s)
  | c :: rest =>
    match findFirstOf filt c with
    | none => some (0, c :: rest)
    | some pos =>
      match viewAt (c :: rest) pos with
      | none => none
      | some d => some (d, rest)

/-- Character codes of the reserved operator set, the string of bar, star,
plus, question mark and the two parentheses passed to matchCharNotIn. -/
def operatorSet : List Int := [124, 42, 43, 63, 40, 41]

/-- Character codes of the postfix quantifier string of plus, question mark
and star passed to matchAnyCharIn. -/
def quantifierSet : List Int := [43, 63, 42]

/-- maybeEscape: escape table mapping b, n, f, r, t to their control codes
and any other character to itself. -/
def maybeEscape (c : Int) : Int :=
  if c = 98 then 8
  else if c = 110 then 10
  else if c = 102 then 12
  else if c = 114 then 13
  else if c = 116 then 9
  else c

/-- matchDot: on a leading dot yield a CHAR node from 0 to the maximum
representable char value 127, with no subnodes. -/
def matchDot (s : St) : Option RegexParserNode × St :=
  match matchChar 46 s with
  | (true, s1) => (some (mkNode NodeType.CHAR [] 0 127), s1)
  | (false, _) => (none, s)

/-- matchPossiblyEscapedChar: consume a character not in the operator set;
a backslash additionally consumes the next character unconditionally and
maps it through the escape table; a null resulting value is a failure that
does not restore the characters already consumed. -/
def matchPossiblyEscapedChar (s : St) : Option RegexParserNode × St :=
  match matchCharNotIn operatorSet s with
  | (c, s1) =>
    if c = 0 then (none, s1)
    else if c = 92 then
      match matchAnyChar s1 with
      | (e, s2) =>
        if maybeEscape e = 0 then (none, s2)
        else (some (mkNode NodeType.CHAR [] (maybeEscape e) (maybeEscape e + 1)), s2)
    else (some (mkNode NodeType.CHAR [] c (c + 1)), s1)

/-- Postfix step of matchAndAddExprWithPossiblePostfix: after an atom has
been produced, probe for a quantifier with matchAnyCharIn and wrap the atom
according to the returned character (plus gives NONZERO, question mark OPT,
anything else MANY); a null return leaves the atom unwrapped. -/
def applyPossiblePostfix (t : RegexParserNode) (s : St) : Res :=
  match matchAnyCharIn quantifierSet s with
  | none => none
  | some (c, s1) =>
    if c = 0 then some (some t, s1)
    else
      some (some (mkNode
        (if c = 43 then NodeType.NONZERO
         else if c = 63 then NodeType.OPT
         else NodeType.MANY) [t] 0 0), s1)

/-- The four mutually recursive grammar rules of the source. -/
inductive Rule where
  | subExpr
  | exprWithPossiblePostfix
  | andedExpr
  | orredExpr

/-- Fueled interpreter of the four grammar rules: subExpr is matchSubExpr,
exprWithPossiblePostfix is matchAndAddExprWithPossiblePostfix, andedExpr is
matchAndAddPossiblyAndedExpr and orredExpr is matchAndAddPossiblyOrredExpr
of the source; each recursive call of the source decrements the fuel. -/
def runRule (fuel : Nat) (r : Rule) (s : St) : Res :=
  match fuel with
  | 0 => some (none, s)
  | Nat.succ fuel =>
    match r with
    | Rule.subExpr =>
      match matchChar 40 s with
      | (false, _) => some (none, s)
      | (true, s1) =>
        match runRule fuel Rule.orredExpr s1 with
        | none => none
        | some (none, _) => some (none, s)
        | some (some t, s2) =>
          match matchChar 41 s2 with
          | (true, s3) => some (some t, s3)
          | (false, _) => some (none, s)
    | Rule.exprWithPossiblePostfix =>
      match runRule fuel Rule.subExpr s with
      | none => none
      | some (some t, s0) => applyPossiblePostfix t s0
      | some (none, s0) =>
        match matchDot s0 with
        | (some t, sd) => applyPossiblePostfix t sd
        | (none, sd) =>
          match matchPossiblyEscapedChar sd with
          | (some t, se) => applyPossiblePostfix t se
          | (none, se) => some (none, se)
    | Rule.andedExpr =>
      match runRule fuel Rule.exprWithPossiblePostfix s with
      | none => none
      | some (none, s1) => some (none, s1)
      | some (some lhs, s1) =>
        match runRule fuel Rule.andedExpr s1 with
        | none => none
        | some (some rhs, s2) => some (some (mkNode NodeType.AND [lhs, rhs] 0 0), s2)
        | some (none, s2) => some (some lhs, s2)
    | Rule.orredExpr =>
      match runRule fuel Rule.andedExpr s with
      | none => none
      | some (lhs, s1) =>
        match matchChar 124 s1 with
        | (false, _) => some (lhs, s1)
        | (true, s2) =>
          match runRule fuel Rule.andedExpr s2 with
          | none => none
          | some (some rhs, s3) =>
            match lhs with
            | some l => some (some (mkNode NodeType.OR [l, rhs] 0 0), s3)
            | none => none
          | some (none, _) => some (lhs, s1)

/-- matchSubExpr of the source: a parenthesised alternation; the cursor is
restored to the entry state on every failure path. -/
def matchSubExpr (fuel : Nat) (s : St) : Res :=
  runRule fuel Rule.subExpr s

/-- matchAndAddExprWithPossiblePostfix of the source. -/
def matchAndAddExprWithPossiblePostfix (fuel : Nat) (s : St) : Res :=
  runRule fuel Rule.exprWithPossiblePostfix s

/-- matchAndAddPossiblyAndedExpr of the source. -/
def matchAndAddPossiblyAndedExpr (fuel : Nat) (s : St) : Res :=
  runRule fuel Rule.andedExpr s

/-- matchAndAddPossiblyOrredExpr of the source. -/
def matchAndAddPossiblyOrredExpr (fuel : Nat) (s : St) : Res :=
  runRule fuel Rule.orredExpr s

/-- Top-level parse as performed by test: run the alternation rule on the
whole input, with ample fuel for the input length. -/
def parse (s : St) : Res :=
  matchAndAddPossiblyOrredExpr (4 * s.length + 8) s

/-- Model of the runtime behaviour of test on input s: the result optional
is dereferenced by t->printf() unconditionally, so the run dereferences an
empty optional exactly when the parse produced no node. -/
def testDerefsEmptyOptional (s : St) : Bool :=
  match parse s with
  | some (none, _) => true
  | _ => false

/-! Unfolding equations for the fueled rule interpreter, stated once so
that symbolic proofs can rewrite with them. -/

/-- Exhausted fuel yields an ordinary failure with the cursor unchanged. -/
theorem runRuleZero (r : Rule) (s : St) : runRule 0 r s = some (none, s) := rfl

/-- Unfolding of the subexpression rule at positive fuel. -/
theorem runRuleSubExprSucc (fuel : Nat) (s : St) :
    runRule (fuel + 1) Rule.subExpr s =
      (match matchChar 40 s with
       | (false, _) => some (none, s)
       | (true, s1) =>
         match runRule fuel Rule.orredExpr s1 with
         | none => none
         | some (none, _) => some (none, s)
         | some (some t, s2) =>
           match matchChar 41 s2 with
           | (true, s3) => some (some t, s3)
           | (false, _) => some (none, s)) := rfl

/-- Unfolding of the postfix rule at positive fuel. -/
theorem runRuleExprWithPossiblePostfixSucc (fuel : Nat) (s : St) :
    runRule (fuel + 1) Rule.exprWithPossiblePostfix s =
      (match runRule fuel Rule.subExpr s with
       | none => none
       | some (some t, s0) => applyPossiblePostfix t s0
       | some (none, s0) =>
         match matchDot s0 with
         | (some t, sd) => applyPossiblePostfix t sd
         | (none, sd) =>
           match matchPossiblyEscapedChar sd with
           | (some t, se) => applyPossiblePostfix t se
           | (none, se) => some (none, se)) := rfl

/-- Unfolding of the sequence rule at positive fuel. -/
theorem runRuleAndedSucc (fuel : Nat) (s : St) :
    runRule (fuel + 1) Rule.andedExpr s =
      (match runRule fuel Rule.exprWithPossiblePostfix s with
       | none => none
       | some (none, s1) => some (none, s1)
       | some (some lhs, s1) =>
         match runRule fuel Rule.andedExpr s1 with
         | none => none
         | some (some rhs, s2) => some (some (mkNode NodeType.AND [lhs, rhs] 0 0), s2)
         | some (none, s2) => some (some lhs, s2)) := rfl

/-- Unfolding of the alternation rule at positive fuel. -/
theorem runRuleOrredSucc (fuel : Nat) (s : St) :
    runRule (fuel + 1) Rule.orredExpr s =
      (match runRule fuel Rule.andedExpr s with
       | none => none
       | some (lhs, s1) =>
         match matchChar 124 s1 with
         | (false, _) => some (lhs, s1)
         | (true, s2) =>
           match runRule fuel Rule.andedExpr s2 with
           | none => none
           | some (some rhs, s3) =>
             match lhs with
             | some l => some (some (mkNode NodeType.OR [l, rhs] 0 0), s3)
             | none => none
           | some (none, _) => some (lhs, s1)) := rfl

/-- Every failure of matchSubExpr leaves the cursor at its entry state. -/
theorem subExprFailRestores (fuel : Nat) (s s' : St)
    (h : matchSubExpr fuel s = some (none, s')) : s' = s := by
  cases fuel with
  | zero =>
    rw [matchSubExpr, runRuleZero] at h
    simp only [Option.some.injEq, Prod.mk.injEq] at h
    exact h.2.symm
  | succ fuel =>
    rw [matchSubExpr, runRuleSubExprSucc] at h
    split at h
    · simp only [Option.some.injEq, Prod.mk.injEq] at h
      exact h.2.symm
    · split at h
      · exact absurd h (by simp)
      · simp only [Option.some.injEq, Prod.mk.injEq] at h
        exact h.2.symm
      · split at h
        · exact absurd h (by simp)
        · simp only [Option.some.injEq, Prod.mk.injEq] at h
          exact h.2.symm

/-- Every failure of matchDot leaves the cursor at its entry state. -/
theorem dotFailRestores (s s' : St) (h : matchDot s = (none, s')) : s' = s := by
  rw [matchDot] at h
  split at h
  · exact absurd h (by simp)
  · simp only [Prod.mk.injEq] at h
    exact h.2.symm

/-- A failure of matchPossiblyEscapedChar whose front character is neither
a backslash nor the null sentinel leaves the cursor at its entry state. -/
theorem escapedFailRestores (s s' : St) (h : matchPossiblyEscapedChar s = (none, s'))
    (hb : s.head? ≠ some 92) (hz : s.head? ≠ some 0) : s' = s := by
  cases s with
  | nil =>
    simp only [matchPossiblyEscapedChar, matchCharNotIn, reduceIte, Prod.mk.injEq] at h
    exact h.2.symm
  | cons c rest =>
    simp only [List.head?_cons, ne_eq, Option.some.injEq] at hb hz
    rw [matchPossiblyEscapedChar, matchCharNotIn] at h
    cases hf : findFirstOf operatorSet c with
    | none =>
      rw [hf] at h
      simp only [if_neg hz, if_neg hb] at h
      exact absurd h (by simp)
    | some pos =>
      rw [hf] at h
      simp only [reduceIte, Prod.mk.injEq] at h
      exact h.2.symm

/-- The subexpression rule fails on empty input. -/
theorem subExprNil (fuel : Nat) : runRule fuel Rule.subExpr [] = some (none, []) := by
  cases fuel with
  | zero => rfl
  | succ fuel => rfl

/-- The postfix rule fails on empty input. -/
theorem exprPostfixNil (fuel : Nat) :
    runRule fuel Rule.exprWithPossiblePostfix [] = some (none, []) := by
  cases fuel with
  | zero => rfl
  | succ fuel =>
    rw [runRuleExprWithPossiblePostfixSucc, subExprNil]
    rfl

/-- The sequence rule fails on empty input. -/
theorem andedNil (fuel : Nat) : runRule fuel Rule.andedExpr [] = some (none, []) := by
  cases fuel with
  | zero => rfl
  | succ fuel => rw [runRuleAndedSucc, exprPostfixNil]

/-- The subexpression rule fails without consuming when the front character
is not an open parenthesis. -/
theorem subExprFailFront (fuel : Nat) (c : Int) (s0 : St) (hc : c ≠ 40) :
    runRule fuel Rule.subExpr (c :: s0) = some (none, c :: s0) := by
  cases fuel with
  | zero => rfl
  | succ fuel => simp only [runRuleSubExprSucc, matchChar, if_neg hc]

/-- The dot rule fails without consuming when the front character is not a
dot. -/
theorem dotFailFront (c : Int) (s0 : St) (hc : c ≠ 46) :
    matchDot (c :: s0) = (none, c :: s0) := by
  simp only [matchDot, matchChar, if_neg hc]

/-- The char store conversion is the identity on the signed char range. -/
theorem toCharEqSelf (x : Int) (h1 : -128 ≤ x) (h2 : x < 128) : toChar x = x := by
  unfold toChar
  omega

/-- The escape table never yields the null sentinel for a nonnull input. -/
theorem maybeEscapeNeZero (e : Int) (he : e ≠ 0) : maybeEscape e ≠ 0 := by
  unfold maybeEscape
  split_ifs <;> omega

/-- The escape table stays inside the signed char range below its maximum. -/
theorem maybeEscapeBounds (e : Int) (h1 : -128 ≤ e) (h2 : e < 127) :
    -128 ≤ maybeEscape e ∧ maybeEscape e < 127 := by
  unfold maybeEscape
  split_ifs <;> omega

/-- A character different from all six reserved operators is not found in
the operator set. -/
theorem findFirstOfOperatorSetNone (c : Int) (h124 : c ≠ 124) (h42 : c ≠ 42)
    (h43 : c ≠ 43) (h63 : c ≠ 63) (h40 : c ≠ 40) (h41 : c ≠ 41) :
    findFirstOf operatorSet c = none := by
  simp only [findFirstOf, operatorSet, findFirstOfAux]
  rw [if_neg (by omega : ¬(124 : Int) = c), if_neg (by omega : ¬(42 : Int) = c),
    if_neg (by omega : ¬(43 : Int) = c), if_neg (by omega : ¬(63 : Int) = c),
    if_neg (by omega : ¬(40 : Int) = c), if_neg (by omega : ¬(41 : Int) = c)]

/-- On a single literal character in the signed char range below the
maximum, the literal rule produces the CHAR node of the half-open range
from the character to its successor, consuming the character. -/
theorem escSingleSuccess (c : Int) (h0 : c ≠ 0) (h40 : c ≠ 40) (h41 : c ≠ 41)
    (h42 : c ≠ 42) (h43 : c ≠ 43) (h63 : c ≠ 63) (h92 : c ≠ 92) (h124 : c ≠ 124)
    (hlo : -128 ≤ c) (hhi : c < 127) :
    matchPossiblyEscapedChar [c] =
      (some (RegexParserNode.node NodeType.CHAR [] c (c + 1)), []) := by
  simp only [matchPossiblyEscapedChar, matchCharNotIn,
    findFirstOfOperatorSetNone c h124 h42 h43 h63 h40 h41,
    if_neg h0, if_neg h92, mkNode,
    toCharEqSelf c hlo (by omega : c < 128),
    toCharEqSelf (c + 1) (by omega : -128 ≤ c + 1) (by omega : c + 1 < 128)]

/-- On a backslash followed by a nonnull character, the literal rule
produces the CHAR node of the escape-table value and its successor,
consuming both characters. -/
theorem escPairSuccess (e : Int) (he : e ≠ 0) (hlo : -128 ≤ e) (hhi : e < 127) :
    matchPossiblyEscapedChar [92, e] =
      (some (RegexParserNode.node NodeType.CHAR [] (maybeEscape e) (maybeEscape e + 1)), []) := by
  have hb := maybeEscapeBounds e hlo hhi
  have hnz := maybeEscapeNeZero e he
  have hcon : findFirstOf operatorSet 92 = none := rfl
  simp only [matchPossiblyEscapedChar, matchCharNotIn, hcon, matchAnyChar, reduceIte,
    if_neg hnz, mkNode,
    toCharEqSelf (maybeEscape e) hb.1 (by omega : maybeEscape e < 128),
    toCharEqSelf (maybeEscape e + 1) (by omega : -128 ≤ maybeEscape e + 1)
      (by omega : maybeEscape e + 1 < 128)]
  rfl

/-- When the literal rule consumes the whole input and produces a node, the
postfix rule returns that node unwrapped, since probing for a quantifier on
the empty remainder returns the null sentinel. -/
theorem postfixFromEscaped (fuel : Nat) (c : Int) (s0 : St) (t : RegexParserNode)
    (h40 : c ≠ 40) (h46 : c ≠ 46)
    (hesc : matchPossiblyEscapedChar (c :: s0) = (some t, [])) :
    runRule (fuel + 1) Rule.exprWithPossiblePostfix (c :: s0) = some (some t, []) := by
  simp only [runRuleExprWithPossiblePostfixSucc, subExprFailFront fuel c s0 h40,
    dotFailFront c s0 h46, hesc, applyPossiblePostfix, matchAnyCharIn, reduceIte]

/-- When the postfix rule consumes the whole input and produces a node, the
sequence rule returns that node alone, since the continuation fails on the
empty remainder. -/
theorem andedFromFullPostfix (fuel : Nat) (s : St) (t : RegexParserNode)
    (h : runRule fuel Rule.exprWithPossiblePostfix s = some (some t, [])) :
    runRule (fuel + 1) Rule.andedExpr s = some (some t, []) := by
  simp only [runRuleAndedSucc, h, andedNil]

/-- When the sequence rule consumes the whole input and produces a node,
the alternation rule returns that node alone, since no bar can follow. -/
theorem orredFromFullAnded (fuel : Nat) (s : St) (t : RegexParserNode)
    (h : runRule fuel Rule.andedExpr s = some (some t, [])) :
    runRule (fuel + 1) Rule.orredExpr s = some (some t, []) := by
  simp only [runRuleOrredSucc, h, matchChar]

/-- When the bar was consumed but the right operand of the alternation
fails, the cursor is reset to the point before the bar and the left result
is returned. -/
theorem orredResetOnRhsFail (fuel : Nat) (s s1 s2 s3 : St) (lhs : Option RegexParserNode)
    (h1 : matchAndAddPossiblyAndedExpr fuel s = some (lhs, s1))
    (h2 : matchChar 124 s1 = (true, s2))
    (h3 : matchAndAddPossiblyAndedExpr fuel s2 = some (none, s3)) :
    matchAndAddPossiblyOrredExpr (fuel + 1) s = some (lhs, s1) := by
  unfold matchAndAddPossiblyAndedExpr at h1 h3
  unfold matchAndAddPossiblyOrredExpr
  simp only [runRuleOrredSucc, h1, h2, h3]

/-- Parsing a single literal character that is not an operator, not the
dot, not a backslash and not the null sentinel, inside the signed char
range below the maximum, yields its CHAR node and consumes the input. -/
theorem parseSingleNonOperator (c : Int) (h0 : c ≠ 0) (h40 : c ≠ 40) (h41 : c ≠ 41)
    (h42 : c ≠ 42) (h43 : c ≠ 43) (h46 : c ≠ 46) (h63 : c ≠ 63) (h92 : c ≠ 92)
    (h124 : c ≠ 124) (hlo : -128 ≤ c) (hhi : c < 127) :
    parse [c] = some (some (RegexParserNode.node NodeType.CHAR [] c (c + 1)), []) := by
  have hesc := escSingleSuccess c h0 h40 h41 h42 h43 h63 h92 h124 hlo hhi
  have hp := postfixFromEscaped 9 c [] _ h40 h46 hesc
  have ha := andedFromFullPostfix 10 [c] _ hp
  have ho := orredFromFullAnded 11 [c] _ ha
  unfold parse matchAndAddPossiblyOrredExpr
  exact ho

/-- Parsing a backslash followed by a nonnull character in the signed char
range below the maximum yields the CHAR node of the escape-table value and
consumes the whole input. -/
theorem parseEscapedPair (e : Int) (he : e ≠ 0) (hlo : -128 ≤ e) (hhi : e < 127) :
    parse [92, e] =
      some (some (RegexParserNode.node NodeType.CHAR [] (maybeEscape e) (maybeEscape e + 1)), []) := by
  have hesc := escPairSuccess e he hlo hhi
  have hp := postfixFromEscaped 13 92 [e] _ (by omega) (by omega) hesc
  have ha := andedFromFullPostfix 14 [92, e] _ hp
  have ho := orredFromFullAnded 15 [92, e] _ ha
  unfold parse matchAndAddPossiblyOrredExpr
  exact ho

/-! Claim theorems. -/

/-- C1: the claim states that parsing an atom X followed by plus, question
mark or star yields NONZERO, OPT or MANY with the tree of X as only child.
In the code only the plus case behaves so: probing for the quantifier reads
the remaining view at the index of the quantifier inside the filter string,
so on input a followed by question mark (index 1) or star (index 2) the
read is past the end of the one-character remainder, which is undefined
behaviour; the OPT and MANY wrappers of the claim are never produced. -/
theorem c1PostfixLookaheadUndefined :
    parse [97, 43] = some (some (RegexParserNode.node NodeType.NONZERO
      [RegexParserNode.node NodeType.CHAR [] 97 98] 0 0), []) ∧
    parse [97, 63] = none ∧
    parse [97, 42] = none :=
  ⟨rfl, rfl, rfl⟩

/-- C2: the claim states that matchAnyCharIn consumes and returns the next
input character when it is in the set.  On remaining input of question mark
then x, with the quantifier set, the function consumes the question mark
but returns x, the character of the remaining view at the filter-index of
the question mark — not the next input character. -/
theorem c2MatchAnyCharInReturnsWrongChar :
    (63 : Int) ∈ quantifierSet ∧
    matchAnyCharIn quantifierSet [63, 120] = some (120, [120]) ∧
    (120 : Int) ≠ 63 :=
  ⟨by decide, rfl, by decide⟩

/-- C3: the claim states that the index used by matchAnyCharIn into the
remaining view is always within bounds.  With remaining input a single
question mark and the quantifier filter, the filter position of the front
character is 1 while only one character remains, so the subscript is out
of bounds; the model marks the run as undefined behaviour. -/
theorem c3MatchAnyCharInIndexOutOfBounds :
    findFirstOf quantifierSet 63 = some 1 ∧
    viewAt [63] 1 = none ∧
    matchAnyCharIn quantifierSet [63] = none :=
  ⟨rfl, rfl, rfl⟩

/-- C4 counterexample: the claim states that every rule restores the cursor
on every failure; the literal-atom rule on a lone backslash fails yet
leaves the backslash consumed, so the exit state differs from the entry
state. -/
theorem c4EscapeFailureMovesCursor :
    matchPossiblyEscapedChar [92] = (none, []) ∧ ([] : St) ≠ [92] :=
  ⟨rfl, by decide⟩

/-- C4 amended: backtracking purity holds outside the escape path: the
subexpression rule and the dot rule restore the cursor exactly on every
failure, and the literal rule restores it on failure whenever its front
character is neither a backslash nor the null sentinel; a consumed
backslash whose completion fails is the sole exception and leaves the
cursor advanced. -/
theorem c4BacktrackRestoreAmended :
    (∀ fuel s s', matchSubExpr fuel s = some (none, s') → s' = s) ∧
    (∀ s s', matchDot s = (none, s') → s' = s) ∧
    (∀ s s', matchPossiblyEscapedChar s = (none, s') →
      s.head? ≠ some 92 → s.head? ≠ some 0 → s' = s) ∧
    matchPossiblyEscapedChar [92] = (none, []) :=
  ⟨subExprFailRestores, dotFailRestores, escapedFailRestores, rfl⟩

/-- C4 witness: the three restoration statements instantiated at concrete
failing inputs. -/
theorem c4BacktrackRestoreWitness :
    matchSubExpr 1 [41] = some (none, [41]) ∧ ([41] : St) = [41] ∧
    matchDot [97] = (none, [97]) ∧ ([97] : St) = [97] ∧
    matchPossiblyEscapedChar [43] = (none, [43]) ∧ ([43] : St) = [43] :=
  ⟨rfl, c4BacktrackRestoreAmended.1 1 [41] [41] rfl, rfl,
   c4BacktrackRestoreAmended.2.1 [97] [97] rfl, rfl,
   c4BacktrackRestoreAmended.2.2.1 [43] [43] rfl (by decide) (by decide)⟩

/-- C5 counterexample: the claim states that the wildcard CHAR node covers
every character including the maximum representable value.  Parsing the
dot yields the CHAR node with first character 0 and past-the-end character
127, and under the half-open convention the maximum value 127 is not
covered. -/
theorem c5DotRangeExcludesMax :
    parse [46] = some (some (RegexParserNode.node NodeType.CHAR [] 0 127), []) ∧
    ¬ nodeCoversChar (RegexParserNode.node NodeType.CHAR [] 0 127) 127 :=
  ⟨rfl, fun h => absurd h.2 (by decide)⟩

/-- C5 amended: parsing the dot succeeds, consumes the input and yields a
CHAR node with no subnodes, first character 0 and past-the-end character
127 (the maximum representable char value); as a half-open range it covers
exactly the characters from 0 up to but excluding 127. -/
theorem c5DotRangeAmended :
    parse [46] = some (some (RegexParserNode.node NodeType.CHAR [] 0 127), []) ∧
    (∀ c : Int, nodeCoversChar (RegexParserNode.node NodeType.CHAR [] 0 127) c ↔
      0 ≤ c ∧ c < 127) :=
  ⟨rfl, fun _ => Iff.rfl⟩

/-- C6: when the literal-atom rule is reached with a lone backslash as the
last character of the input, the backslash is consumed by matchCharNotIn,
the second consumption via matchAnyChar yields the null sentinel, and the
rule fails producing no node while the cursor stays one position past the
entry point. -/
theorem c6TrailingBackslashQuirk :
    matchCharNotIn operatorSet [92] = (92, List.drop 1 [92]) ∧
    matchAnyChar (List.drop 1 [92]) = (0, List.drop 1 [92]) ∧
    matchPossiblyEscapedChar [92] = (none, List.drop 1 [92]) :=
  ⟨rfl, rfl, rfl⟩

/-- C7 counterexample: the claim states that parsing an expression inside
parentheses yields the identical tree to parsing it alone.  The input of a
followed by a backslash parses alone to the CHAR node of a with the whole
input consumed, yet wrapped in parentheses the parse produces no tree at
all (the escape eats the closing parenthesis).  Likewise a followed by a
question mark — derivable from the grammar of the specification — parses
in parentheses to a MANY node while alone the run is undefined behaviour;
in neither reading are the trees identical. -/
theorem c7GroupingNotTransparent :
    parse [97, 92] = some (some (RegexParserNode.node NodeType.CHAR [] 97 98), []) ∧
    parse [40, 97, 92, 41] = some (none, [40, 97, 92, 41]) ∧
    parse [40, 97, 63, 41] = some (some (RegexParserNode.node NodeType.MANY
      [RegexParserNode.node NodeType.CHAR [] 97 98] 0 0), []) ∧
    parse [97, 63] = none :=
  ⟨rfl, rfl, rfl, rfl⟩

/-- C7 amended: grouping transparency holds for expressions unaffected by
the escape and quantifier-lookahead quirks — the parenthesised letter a
parses to the identical tree as a alone — and the failure half of the
claim holds in general: every failure of the grouping rule restores the
cursor to its entry state, in particular the lone open parenthesis yields
no tree with the cursor back at the start. -/
theorem c7GroupingAmended :
    parse [40, 97, 41] = some (some (RegexParserNode.node NodeType.CHAR [] 97 98), []) ∧
    parse [97] = some (some (RegexParserNode.node NodeType.CHAR [] 97 98), []) ∧
    (∀ fuel s s', matchSubExpr fuel s = some (none, s') → s' = s) ∧
    parse [40] = some (none, [40]) :=
  ⟨rfl, rfl, subExprFailRestores, rfl⟩

/-- C7 witness: the restoration statement of the grouping rule
instantiated at a concrete failing input. -/
theorem c7GroupingWitness :
    matchSubExpr 3 [41] = some (none, [41]) ∧ ([41] : St) = [41] :=
  ⟨rfl, c7GroupingAmended.2.2.1 3 [41] [41] rfl⟩

/-- C8 counterexample: the claim states that for successfully parsing
sequences A and B, the input A bar B yields an OR node of their two trees.
With A the two characters a backslash and B the letter b, both parse
successfully on their own, yet the combined input parses to an AND chain
(the escape eats the bar), not to an OR node. -/
theorem c8AlternationNotOrNode :
    parse [97, 92] = some (some (RegexParserNode.node NodeType.CHAR [] 97 98), []) ∧
    parse [98] = some (some (RegexParserNode.node NodeType.CHAR [] 98 99), []) ∧
    parse [97, 92, 124, 98] = some (some (RegexParserNode.node NodeType.AND
      [RegexParserNode.node NodeType.CHAR [] 97 98,
       RegexParserNode.node NodeType.AND
         [RegexParserNode.node NodeType.CHAR [] 124 125,
          RegexParserNode.node NodeType.CHAR [] 98 99] 0 0] 0 0), []) ∧
    NodeType.AND ≠ NodeType.OR :=
  ⟨rfl, rfl, rfl, by decide⟩

/-- C8 amended: alternation builds an OR node of the two operand trees
when the left operand is free of the escape and lookahead quirks — the
input a bar b parses to OR of the CHAR nodes of a and b — and the reset
half of the claim holds in general: whenever the bar was consumed but the
right-hand sequence fails, the cursor is reset to the point before the bar
and the left tree alone is returned. -/
theorem c8AlternationAmended :
    parse [97, 124, 98] = some (some (RegexParserNode.node NodeType.OR
      [RegexParserNode.node NodeType.CHAR [] 97 98,
       RegexParserNode.node NodeType.CHAR [] 98 99] 0 0), []) ∧
    (∀ fuel s s1 s2 s3 lhs,
      matchAndAddPossiblyAndedExpr fuel s = some (lhs, s1) →
      matchChar 124 s1 = (true, s2) →
      matchAndAddPossiblyAndedExpr fuel s2 = some (none, s3) →
      matchAndAddPossiblyOrredExpr (fuel + 1) s = some (lhs, s1)) :=
  ⟨rfl, orredResetOnRhsFail⟩

/-- C8 witness: the reset statement instantiated on the input a bar close
parenthesis, where the right-hand sequence fails after the bar was
consumed and the left CHAR node is returned with the cursor before the
bar. -/
theorem c8AlternationWitness :
    matchAndAddPossiblyAndedExpr 8 [97, 124, 41] =
      some (some (RegexParserNode.node NodeType.CHAR [] 97 98), [124, 41]) ∧
    matchAndAddPossiblyOrredExpr 9 [97, 124, 41] =
      some (some (RegexParserNode.node NodeType.CHAR [] 97 98), [124, 41]) :=
  ⟨rfl, c8AlternationAmended.2 8 [97, 124, 41] [124, 41] [41] [41]
    (some (RegexParserNode.node NodeType.CHAR [] 97 98)) rfl rfl rfl⟩

/-- C9 counterexample: the claim quantifies over every character outside
the set of bar, star, plus, question mark, parentheses and backslash, a
set that fails to exclude the dot: parsing the dot (code 46) yields the
wildcard CHAR node from 0 to 127, not the literal node from 46 to 47. -/
theorem c9DotLiteralMismatch :
    parse [46] = some (some (RegexParserNode.node NodeType.CHAR [] 0 127), []) ∧
    (0 : Int) ≠ 46 ∧ (127 : Int) ≠ 47 :=
  ⟨rfl, by decide, by decide⟩

/-- C9 amended: parsing a single character outside the reserved operators,
the dot, the backslash and the null sentinel, lying in the signed char
range below the maximum 127 (so that the successor does not wrap), yields
a CHAR node of the half-open range from the character to its successor
with no subnodes, consuming the whole input; and parsing a backslash
followed by such a character yields the CHAR node of its escape-table
value and successor. -/
theorem c9LiteralCharAmended :
    (∀ c : Int, c ≠ 0 → c ≠ 40 → c ≠ 41 → c ≠ 42 → c ≠ 43 → c ≠ 46 → c ≠ 63 →
      c ≠ 92 → c ≠ 124 → -128 ≤ c → c < 127 →
      parse [c] = some (some (RegexParserNode.node NodeType.CHAR [] c (c + 1)), [])) ∧
    (∀ e : Int, e ≠ 0 → -128 ≤ e → e < 127 →
      parse [92, e] = some (some (RegexParserNode.node NodeType.CHAR []
        (maybeEscape e) (maybeEscape e + 1)), [])) :=
  ⟨parseSingleNonOperator, parseEscapedPair⟩

/-- C9 witness: the letter g parses to its literal CHAR node and the
escaped n parses to the CHAR node of the newline control code. -/
theorem c9LiteralCharWitness :
    parse [103] = some (some (RegexParserNode.node NodeType.CHAR [] 103 104), []) ∧
    parse [92, 110] = some (some (RegexParserNode.node NodeType.CHAR [] 10 11), []) :=
  ⟨c9LiteralCharAmended.1 103 (by decide) (by decide) (by decide) (by decide) (by decide)
     (by decide) (by decide) (by decide) (by decide) (by decide) (by decide),
   c9LiteralCharAmended.2 110 (by decide) (by decide) (by decide)⟩

/-- C10: the claim states that the dereference of the parse result in test
is reached only when a node was produced.  The code calls the dump through
the optional unconditionally at runtime (the guard is commented out), and
the empty input makes the top-level parse produce no node, so on the empty
input the run dereferences an empty optional. -/
theorem c10TestDereferencesEmptyOptional :
    parse [] = some (none, []) ∧ testDerefsEmptyOptional [] = true :=
  ⟨rfl, rfl⟩
